import Mathlib

/-!
Verification of the document-analysis core of the vibe-code-demo-app
repository (TypeScript) against its natural-language specification.

The TypeScript sources are embedded shallowly:

* Pure string/array processing is translated to executable Lean functions
  over `String` / `List Char`.
* JavaScript values of type `any` are modelled by `Option`-typed records:
  `none` stands for a field that is `undefined`, not an array, or whose
  coercion (`parseInt`, `JSON.parse`) fails (`NaN` / exception).
* Calls out of the analysed fragment (the HTTP fetch of the model, the
  JSON.parse builtin, the regex engine of the 15 pattern rules) are the
  oracle boundary: their *outcome* is a parameter of the embedded
  function, and everything downstream of that outcome is embedded
  faithfully.
* Thrown exceptions become `Except String`.
-/

/-! ## JavaScript string primitives -/

/-- JavaScript whitespace class `\s` (the code points relevant to `\s`,
`trim` and `trimStart`). -/
def jsWsChar (c : Char) : Bool :=
  c = ' ' || c = '\t' || c = '\n' || c = '\r' || c = '\u000b' || c = '\u000c' ||
  c = ' ' || c = ' ' || (' ' ≤ c && c ≤ ' ') ||
  c = ' ' || c = ' ' || c = ' ' || c = ' ' ||
  c = '　' || c = '﻿'

/-- JavaScript `\w` word-character class `[A-Za-z0-9_]`. -/
def jsWordChar (c : Char) : Bool :=
  c.isAlpha || c.isDigit || c = '_'

/-- Embeds `String.prototype.trimStart` on a character list. -/
def jsTrimStartL (l : List Char) : List Char :=
  l.dropWhile jsWsChar

/-- Embeds `String.prototype.trim` on a character list. -/
def jsTrimL (l : List Char) : List Char :=
  ((l.dropWhile jsWsChar).reverse.dropWhile jsWsChar).reverse

/-- Embeds `a.startsWith b` on character lists. -/
def startsWithL : List Char → List Char → Bool
  | _, [] => true
  | [], _ :: _ => false
  | c :: cs, d :: ds => c = d && startsWithL cs ds

/-- Embeds `a.includes b` (substring containment) on character lists. -/
def containsSubL : List Char → List Char → Bool
  | l, needle =>
    match l with
    | [] => startsWithL [] needle
    | _ :: cs => startsWithL l needle || containsSubL cs needle

/-- Substring containment on strings: `haystack.includes needle`. -/
def jsIncludes (haystack needle : String) : Bool :=
  containsSubL haystack.toList needle.toList

/-- Scanner for `.replace(/\s+/g, ' ')`: `inRun` records whether the
previous character belonged to a whitespace run already replaced. -/
def squashWsAux : Bool → List Char → List Char
  | _, [] => []
  | inRun, c :: cs =>
    if jsWsChar c then
      if inRun then squashWsAux true cs
      else ' ' :: squashWsAux true cs
    else c :: squashWsAux false cs

/-- Embeds `.replace(/\s+/g, ' ')`: collapse every whitespace run to one space. -/
def squashWsL (l : List Char) : List Char :=
  squashWsAux false l

/-- Embeds `String.prototype.split(sep)` for a one-character separator. -/
def splitChL (sep : Char) : List Char → List (List Char)
  | [] => [[]]
  | c :: cs =>
    let rest := splitChL sep cs
    if c = sep then
      [] :: rest
    else
      match rest with
      | [] => [[c]]
      | piece :: pieces => (c :: piece) :: pieces

/-- Embeds `str.split(sep)` at the `String` level. -/
def jsSplit (sep : Char) (s : String) : List String :=
  (splitChL sep s.toList).map List.asString

/-- Embeds `[...new Set(xs)]`: deduplicate keeping first occurrences. -/
def dedupFirst : List Int → List Int
  | [] => []
  | x :: xs => x :: (dedupFirst xs).filter (fun y => y ≠ x)

/-- Embeds `xs.join(sep)`. -/
def joinSep (sep : String) : List String → String
  | [] => ""
  | [x] => x
  | x :: xs => x ++ sep ++ joinSep sep xs

/-- Decimal value of a digit string (`Number` on an all-digit string). -/
def digitsToNat (l : List Char) : Nat :=
  l.foldl (fun n c => n * 10 + (c.toNat - 48)) 0

/-! ## Data model (`AnalysisResult` as used across `src/lib`)

`page` is an `Int` because `summary.pagesAffected` can be copied verbatim
from a model payload (`company-llm.ts`), so arbitrary JS numbers flow in.
`type` is kept as a `String` drawn from the closed vocabularies below. -/

structure AnalysisIssue where
  page : Int
  type : String
  message : String
  original : String
  suggestion : String
  locationHint : String
  deriving DecidableEq, Repr

structure AnalysisSummary where
  issueCount : Int
  pagesAffected : List Int
  deriving DecidableEq, Repr

structure AnalysisResult where
  fileName : String
  issues : List AnalysisIssue
  summary : AnalysisSummary
  deriving DecidableEq, Repr

/-! ## `src/lib/review.ts` — `normalizeData` and the Gemini call

A raw issue coming out of `JSON.parse` has fields of type `any`:

* `page` is modelled by the result of `parseInt(issue.page, 10)`:
  `some k` when it parses to the integer `k`, `none` when it is `NaN`;
* `type` is `some t` when the field is the string `t`, `none` when it is
  absent or not a string (`allowedTypes.includes` is then false);
* the four text fields are `some s` for a string `s`, `none` for a
  missing field (`String(x || '')` then yields `""`). -/

structure RawIssue where
  page : Option Int
  type : Option String
  message : Option String
  original : Option String
  suggestion : Option String
  locationHint : Option String
  deriving DecidableEq, Repr

/-- Raw parsed payload as `normalizeData` consumes it: `issues` is `none`
when `Array.isArray(data.issues)` is false. -/
structure RawAnalysis where
  issues : Option (List RawIssue)
  deriving DecidableEq, Repr

/-- The `allowedTypes` list of `review.ts` (line 88). -/
def reviewAllowedTypes : List String :=
  ["typo", "spacing", "punctuation", "capitalization", "alignment", "font",
   "formatting", "other"]

/-- Embeds `Math.max(1, parseInt(issue.page, 10) || 1)`: `NaN` and `0` are falsy
and replaced by 1 before the `max`. -/
def coercePage (p : Option Int) : Int :=
  max 1 (match p with
         | some k => if k = 0 then 1 else k
         | none => 1)

/-- The per-issue coercion inside `normalizeData` (review.ts 89–96). -/
def normalizeIssueReview (i : RawIssue) : AnalysisIssue :=
  { page := coercePage i.page
    type := match i.type with
            | some t => if t ∈ reviewAllowedTypes then t else "other"
            | none => "other"
    message := i.message.getD ""
    original := i.original.getD ""
    suggestion := i.suggestion.getD ""
    locationHint := i.locationHint.getD "" }

/-- Embeds `normalizeData` (review.ts 83–103): overwrite `fileName`, default a
non-array `issues` to `[]`, coerce each issue, then derive the summary
from the coerced issue list. -/
def normalizeData (data : RawAnalysis) (fileName : String) : AnalysisResult :=
  let issues := (data.issues.getD []).map normalizeIssueReview
  { fileName := fileName
    issues := issues
    summary := { issueCount := (issues.length : Int)
                 pagesAffected := dedupFirst (issues.map (·.page)) } }

/-- Rereading a normalized issue as a raw one, the way JavaScript sees the
object produced by `normalizeData` when it is passed in again. -/
def toRawIssue (a : AnalysisIssue) : RawIssue :=
  { page := some a.page
    type := some a.type
    message := some a.message
    original := some a.original
    suggestion := some a.suggestion
    locationHint := some a.locationHint }

/-- Rereading a normalized result as raw input to `normalizeData`. -/
def toRawAnalysis (r : AnalysisResult) : RawAnalysis :=
  { issues := some (r.issues.map toRawIssue) }

/-- Outcome of the external Gemini call in `callGemini` (review.ts 58–74):
either the 120 s race is lost, or the response text is delivered and
`JSON.parse` of the fence-stripped text succeeds (`some`) or throws
(`none`). -/
inductive GeminiOutcome where
  | timeout : GeminiOutcome
  | response : Option RawAnalysis → GeminiOutcome
  deriving DecidableEq

/-- Control flow of `callGemini` downstream of the race (review.ts 63–74):
a lost race surfaces `Model timeout`; an unparseable body surfaces
`Bad model JSON`; a parsed body is returned. -/
def callGeminiResult : GeminiOutcome → Except String RawAnalysis
  | .timeout => .error "Model timeout"
  | .response none => .error "Bad model JSON"
  | .response (some p) => .ok p

/-! ## `src/lib/company-llm.ts` — `parseAnalysisResponse` -/

/-- The `validTypes` list of `CompanyLLMService.normalizeIssue`
(company-llm.ts 255). -/
def companyValidTypes : List String :=
  ["typo", "spacing", "punctuation", "capitalization", "alignment", "font",
   "formatting", "cross_reference", "logic_point", "other"]

/-- Embeds `CompanyLLMService.normalizeIssue` (company-llm.ts 254–265). -/
def normalizeIssueCompany (i : RawIssue) : AnalysisIssue :=
  { page := coercePage i.page
    type := match i.type with
            | some t => if t ∈ companyValidTypes then t else "other"
            | none => "other"
    message := i.message.getD ""
    original := i.original.getD ""
    suggestion := i.suggestion.getD ""
    locationHint := i.locationHint.getD "" }

/-- Raw `summary` member of a parsed model payload. -/
structure RawSummary where
  issueCount : Option Int
  pagesAffected : Option (List Int)
  deriving DecidableEq, Repr

/-- Raw payload of the company-LLM response after `JSON.parse`:
`fileName` is `none` when absent (falsy), `issues` is `none` when not an
array, `summary` is `none` when absent. -/
structure RawParsed where
  fileName : Option String
  issues : Option (List RawIssue)
  summary : Option RawSummary
  deriving DecidableEq, Repr

/-- Embeds `CompanyLLMService.parseAnalysisResponse` (company-llm.ts 216–249).
The argument is the outcome of `JSON.parse` on the fence-stripped
response text: `none` when the parse throws.  On parse failure the
function catches and returns the fallback result with zero issues; on
success the summary fields are copied from the payload
(`parsed.summary?.issueCount || 0`), not derived from `issues`. -/
def parseAnalysisResponse (parsed : Option RawParsed) (fileName : String) :
    AnalysisResult :=
  match parsed with
  | none =>
      { fileName := fileName
        issues := []
        summary := { issueCount := 0, pagesAffected := [] } }
  | some p =>
      { fileName := match p.fileName with
                    | some s => if s = "" then fileName else s
                    | none => fileName
        issues := (p.issues.getD []).map normalizeIssueCompany
        summary :=
          { issueCount := match p.summary.bind RawSummary.issueCount with
                          | some n => if n = 0 then 0 else n
                          | none => 0
            pagesAffected := (p.summary.bind RawSummary.pagesAffected).getD [] } }

/-- Embeds `SecureReviewService.processWithCompanyLLM` (secure-review.ts 247–259):
the company-LLM call either delivers a result or throws; a thrown error is
caught and replaced by the result of the local-pattern analysis, which is
passed here as the value the fallback call would produce. -/
def processWithCompanyLLM (llmOutcome : Except String AnalysisResult)
    (localPatternResult : AnalysisResult) : AnalysisResult :=
  match llmOutcome with
  | .ok r => r
  | .error _ => localPatternResult

/-! ## `src/lib/secure-review.ts` — `processManualOnly` (lines 271–287) -/

def processManualOnly (fileName : String) : AnalysisResult :=
  { fileName := fileName
    issues := [{ page := 1
                 type := "other"
                 message := "Document uploaded for manual review only"
                 original := ""
                 suggestion := "Please review this document manually"
                 locationHint := "Manual review required" }]
    summary := { issueCount := 1, pagesAffected := [1] } }

/-! ## `src/lib/rules.ts` — cross-reference and numbering detectors

`SECTION_DECL_RE = /\bSection\s+(?:[IVXLCDM]+|\d+|[A-Z])\b/g` is embedded
as a direct matcher.  Because every character of the label alternatives is
a word character, the trailing `\b` can only hold at the maximal run of
the chosen alternative, so the backtracking alternation reduces to the
deterministic cascade implemented here.

The header test on line 18 of `rules.ts`,
`/^\s*Section\s+(?:[IVXLCDM]+|\d+|[A-Z])(\s*[–—-:])/`, is NOT a valid
JavaScript regular expression as written: inside the character class the
unescaped `-` between the em dash (U+2014) and `:` (U+003A) forms an
out-of-order range, which is an early SyntaxError, so loading the module
throws.  The embedding reads the class as the four literal characters
{en dash, em dash, hyphen, colon} — the evident intent — and the claims
touching this line are settled accordingly. -/

def romanChar (c : Char) : Bool :=
  c = 'I' || c = 'V' || c = 'X' || c = 'L' || c = 'C' || c = 'D' || c = 'M'

def capitalChar (c : Char) : Bool :=
  'A' ≤ c && c ≤ 'Z'

/-- Embeds `\b` after a word character: holds at end of input or before a
non-word character. -/
def wordBoundaryAfter : List Char → Bool
  | [] => true
  | c :: _ => !jsWordChar c

/-- Attempt to match `\bSection\s+(?:[IVXLCDM]+|\d+|[A-Z])\b` at the head
of `l`.  `prevWord` says whether the character just before `l` is a word
character (the leading `\b`).  Returns the full matched substring. -/
def matchSectionAt (prevWord : Bool) (l : List Char) : Option (List Char) :=
  if prevWord then none
  else
    let sec := "Section".toList
    if startsWithL l sec then
      let r1 := l.drop 7
      let ws := r1.takeWhile jsWsChar
      if ws.isEmpty then none
      else
        let r2 := r1.drop ws.length
        let rr := r2.takeWhile romanChar
        if !rr.isEmpty && wordBoundaryAfter (r2.drop rr.length) then
          some (sec ++ ws ++ rr)
        else
          let dd := r2.takeWhile Char.isDigit
          if !dd.isEmpty && wordBoundaryAfter (r2.drop dd.length) then
            some (sec ++ ws ++ dd)
          else
            match r2 with
            | c :: r3 =>
              if capitalChar c && wordBoundaryAfter r3 then
                some (sec ++ ws ++ [c])
              else none
            | [] => none
    else none

/-- Global scan of the section pattern (`match` / `matchAll` semantics:
leftmost, non-overlapping, resuming after each match).  The last character
of every match is a word character, so `prevWord` is true right after a
match.  `fuel` bounds recursion; every step consumes at least one
character, so `l.length` fuel is enough. -/
def sectionScanF : Nat → Bool → Nat → List Char → List (Nat × List Char)
  | 0, _, _, _ => []
  | _, _, _, [] => []
  | fuel + 1, prevWord, pos, c :: rest =>
    match matchSectionAt prevWord (c :: rest) with
    | some tok =>
      (pos, tok) :: sectionScanF fuel true (pos + tok.length) ((c :: rest).drop tok.length)
    | none => sectionScanF fuel (jsWordChar c) (pos + 1) rest

/-- All matches of `SECTION_DECL_RE` in `s` with their start indices
(`text.matchAll(SECTION_DECL_RE)`). -/
def sectionMatchesPos (s : String) : List (Nat × String) :=
  (sectionScanF s.toList.length false 0 s.toList).map (fun p => (p.1, p.2.asString))

/-- All matched substrings (`line.match(SECTION_DECL_RE)`). -/
def sectionMatches (s : String) : List String :=
  (sectionMatchesPos s).map (·.2)

/-- Embeds `\s*` then one of the separator characters (the class `[–—-:]` read
as its four literal characters, see the section comment). -/
def sepAfter (l : List Char) : Bool :=
  match l.dropWhile jsWsChar with
  | c :: _ => c = '–' || c = '—' || c = '-' || c = ':'
  | [] => false

/-- Embeds `/^\s*Section\s+(?:[IVXLCDM]+|\d+|[A-Z])(\s*[–—-:])/.test(line)` —
anchored at the start of the line, so it looks at the line's leading
token, whatever `tok` is being considered.  As with the scan, shorter
backtracking prefixes of a label run cannot satisfy `\s*[–—-:]`, so the
cascade below is equivalent to the backtracking alternation. -/
def headerAnchorTest (line : String) : Bool :=
  let r0 := line.toList.dropWhile jsWsChar
  let sec := "Section".toList
  if startsWithL r0 sec then
    let r1 := r0.drop 7
    let ws := r1.takeWhile jsWsChar
    if ws.isEmpty then false
    else
      let r2 := r1.drop ws.length
      let rr := r2.takeWhile romanChar
      if !rr.isEmpty && sepAfter (r2.drop rr.length) then true
      else
        let dd := r2.takeWhile Char.isDigit
        if !dd.isEmpty && sepAfter (r2.drop dd.length) then true
        else
          match r2 with
          | c :: r3 => capitalChar c && sepAfter r3
          | [] => false
  else false

/-- Embeds `looksHeader` (rules.ts line 18). -/
def looksHeader (line tok : String) : Bool :=
  headerAnchorTest line || startsWithL (jsTrimStartL line.toList) tok.toList

/-- The tokens of one line that pass `looksHeader` — exactly the ones the
`hits.forEach` loop of `collectDeclaredSections` records for that line. -/
def declTokensOfLine (line : String) : List String :=
  (sectionMatches line).filter (fun tok => looksHeader line tok)

/-- Insertion-ordered map update: `m.get(tok) ?? new Set(); s.add(page)`. -/
def mapAddPage : List (String × List Nat) → String → Nat → List (String × List Nat)
  | [], tok, page => [(tok, [page])]
  | (k, ps) :: rest, tok, page =>
    if k = tok then
      (k, if page ∈ ps then ps else ps ++ [page]) :: rest
    else
      (k, ps) :: mapAddPage rest tok page

/-- Embeds `collectDeclaredSections` (rules.ts 11–27): the label → page-set map,
modelled as an insertion-ordered association list. -/
def collectDeclaredSections (pages : List String) : List (String × List Nat) :=
  pages.enum.foldl
    (fun m it =>
      (jsSplit '\n' it.2).foldl
        (fun m line =>
          (declTokensOfLine line).foldl (fun m tok => mapAddPage m tok (it.1 + 1)) m)
        m)
    []

structure SectionRef where
  label : String
  page : Nat
  context : String
  deriving DecidableEq, Repr

/-- Embeds `collectReferencedSections` (rules.ts 29–41): every occurrence on
every page, with ±40 characters of squashed, trimmed context. -/
def collectReferencedSections (pages : List String) : List SectionRef :=
  pages.enum.foldl
    (fun refs it =>
      refs ++ (sectionMatchesPos it.2).map (fun m =>
        let chars := it.2.toList
        let start := m.1 - 40
        let stop := min chars.length (m.1 + m.2.length + 40)
        { label := m.2
          page := it.1 + 1
          context := (jsTrimL (squashWsL ((chars.drop start).take (stop - start)))).asString }))
    []

/-- Embeds `diffMissingReferences` (rules.ts 43–58). -/
def diffMissingReferences (declared : List (String × List Nat))
    (referenced : List SectionRef) : List AnalysisIssue :=
  referenced.filterMap (fun r =>
    if declared.any (fun kp => kp.1 = r.label) then none
    else
      some { page := (r.page : Int)
             type := "reference"
             message := "Reference to missing section: " ++ r.label
             original := r.context
             suggestion :=
               "Remove/update the reference; declared sections: " ++
               (let ks := joinSep ", " (declared.map (·.1))
                if ks = "" then "none" else ks) ++ "."
             locationHint := r.context })

/-- The composed cross-reference detector, as the spec's end-to-end
scenario exercises it. -/
def crossReferenceIssues (pages : List String) : List AnalysisIssue :=
  diffMissingReferences (collectDeclaredSections pages)
    (collectReferencedSections pages)

/-! ### Numbering detector (`findNumberingGaps`, rules.ts 60–101) -/

/-- Embeds `LIST_RE = /^\s*([a-zA-Z]|\d+)[\.\)]\s+/`: returns the captured
marker `m[1]` when the line starts with an ordered-list marker. -/
def lineMarker (l : List Char) : Option String :=
  let r := l.dropWhile jsWsChar
  match r with
  | c :: r1 =>
    if c.isAlpha then
      match r1 with
      | d :: r2 =>
        if (d = '.' || d = ')') &&
           (match r2 with | e :: _ => jsWsChar e | [] => false) then
          some [c].asString
        else none
      | [] => none
    else if c.isDigit then
      let dd := r.takeWhile Char.isDigit
      match r.drop dd.length with
      | d :: r2 =>
        if (d = '.' || d = ')') &&
           (match r2 with | e :: _ => jsWsChar e | [] => false) then
          some dd.asString
        else none
      | [] => none
    else none
  | [] => none

/-- Embeds `lab.toLowerCase().charCodeAt(0)`; the captured markers are always
nonempty, the 0 default is unreachable on them. -/
def lowerFirstCode (s : String) : Nat :=
  match s.toList with
  | c :: _ => (Char.toLower c).toNat
  | [] => 0

/-- Embeds `Number(lab)` gated by `Number.isFinite`: `some` exactly on the
all-digit markers, `none` on alphabetic ones (`NaN`). -/
def markerNum (s : String) : Option Nat :=
  if !s.toList.isEmpty && s.toList.all Char.isDigit then
    some (digitsToNat s.toList)
  else none

/-- The `flush` closure of `findNumberingGaps` (rules.ts 66–92): a run of
fewer than two markers is discarded; otherwise adjacent markers are
compared, alphabetically or numerically according to the first marker. -/
def flushRun (page : Nat) (seq : List (String × String)) : List AnalysisIssue :=
  if seq.length < 2 then []
  else
    let isAlphaRun :=
      match seq with
      | (lab, _) :: _ =>
        lab.toList.length = 1 &&
        (match lab.toList with | c :: _ => c.isAlpha | [] => false)
      | [] => false
    if isAlphaRun then
      (seq.zip seq.tail).filterMap (fun pc =>
        let prev := lowerFirstCode pc.1.1
        let curr := lowerFirstCode pc.2.1
        if curr ≠ prev + 1 then
          some { page := (page : Int)
                 type := "numbering"
                 message := "List jumps from \"" ++ pc.1.1 ++ "\" to \"" ++ pc.2.1 ++ "\""
                 original := pc.2.2
                 suggestion := "Insert \"" ++ (Char.ofNat (prev + 1)).toString ++ ".\" or renumber."
                 locationHint := (jsTrimL pc.2.2.toList).asString }
        else none)
    else
      (seq.zip seq.tail).filterMap (fun pc =>
        match markerNum pc.1.1, markerNum pc.2.1 with
        | some p, some c =>
          if c ≠ p + 1 then
            some { page := (page : Int)
                   type := "numbering"
                   message := "List jumps from \"" ++ toString p ++ "\" to \"" ++ toString c ++ "\""
                   original := pc.2.2
                   suggestion := "Insert \"" ++ toString (p + 1) ++ ".\" or renumber."
                   locationHint := (jsTrimL pc.2.2.toList).asString }
          else none
        | _, _ => none)

/-- Per-page scan of `findNumberingGaps`: accumulate consecutive marker
lines, flush on a non-marker line and at end of page. -/
def numberingIssuesOfPage (page : Nat) (text : String) : List AnalysisIssue :=
  let step :=
    (jsSplit '\n' text).foldl
      (fun (st : List (String × String) × List AnalysisIssue) line =>
        match lineMarker line.toList with
        | some lab => (st.1 ++ [(lab, line)], st.2)
        | none => ([], st.2 ++ flushRun page st.1))
      ([], [])
  step.2 ++ flushRun page step.1

/-- Embeds `findNumberingGaps` (rules.ts 60–101). -/
def findNumberingGaps (pages : List String) : List AnalysisIssue :=
  pages.enum.foldl (fun acc it => acc ++ numberingIssuesOfPage (it.1 + 1) it.2) []

/-! ### Claim-side predicate for the declaration rule (spec §4.2)

Written from the spec's words, to be compared with the code's
`looksHeader`: a match is a declaration when the trimmed line starts with
the token, or the token itself is immediately followed by a separator
character. -/

def specSeparator (c : Char) : Bool :=
  c = ':' || c = '-' || c = '—' || c = '–'

/-- Modelled from the spec: the spec's declaration rule for one matched
token of a line. -/
def specDeclarationRule (line tok : String) : Bool :=
  startsWithL (jsTrimStartL line.toList) tok.toList ||
  (sectionMatchesPos line).any (fun m =>
    m.2 = tok &&
    (match line.toList.drop (m.1 + m.2.length) with
     | c :: _ => specSeparator c
     | [] => false))

/-! ## `src/lib/local-patterns.ts` — `LocalPatternProcessor`

The fifteen rule regexes run on the JavaScript regex engine; that engine
is the oracle boundary here: the raw `(text, index)` pairs produced by
`rule.pattern.exec` are taken as input, and everything the class does
with them — page resolution, context capture, issue synthesis, summary —
is embedded.  `pattern` is carried as its source text. -/

structure PatternRule where
  id : String
  name : String
  description : String
  patternSrc : String
  type : String
  severity : String
  suggestion : String
  enabled : Bool
  deriving DecidableEq, Repr

/-- The rule table (local-patterns.ts 25–189). -/
def defaultRules : List PatternRule :=
  [{ id := "common_typos", name := "Common Typos",
     description := "Detects common spelling mistakes",
     patternSrc := "\\b(teh|recieve|seperate|occurence|accomodate|definately|goverment|buisness|occured|managment)\\b",
     type := "typo", severity := "medium",
     suggestion := "Check spelling and correct typos", enabled := true },
   { id := "duplicate_words", name := "Duplicate Words",
     description := "Finds repeated words",
     patternSrc := "\\b(\\w+)\\s+\\1\\b",
     type := "typo", severity := "medium",
     suggestion := "Remove duplicate word", enabled := true },
   { id := "missing_periods", name := "Missing Periods",
     description := "Sentences without ending punctuation",
     patternSrc := "[a-z]\\s*\\n\\s*[A-Z]",
     type := "punctuation", severity := "low",
     suggestion := "Add missing period at end of sentence", enabled := true },
   { id := "double_spaces", name := "Double Spaces",
     description := "Multiple consecutive spaces",
     patternSrc := "  +",
     type := "spacing", severity := "low",
     suggestion := "Replace multiple spaces with single space", enabled := true },
   { id := "space_before_punctuation", name := "Space Before Punctuation",
     description := "Incorrect spacing before punctuation",
     patternSrc := "\\s+[,.;:!?]",
     type := "spacing", severity := "medium",
     suggestion := "Remove space before punctuation", enabled := true },
   { id := "sentence_capitalization", name := "Sentence Capitalization",
     description := "Sentences not starting with capital letters",
     patternSrc := "[.!?]\\s+[a-z]",
     type := "capitalization", severity := "medium",
     suggestion := "Capitalize first letter of sentence", enabled := true },
   { id := "currency_formatting", name := "Currency Formatting",
     description := "Inconsistent currency formatting",
     patternSrc := "\\$\\s*\\d+(?:\\.\\d{3,}|\\.\\d{1}(?!\\d))",
     type := "formatting", severity := "medium",
     suggestion := "Use consistent currency formatting (e.g., $1,000.00)",
     enabled := true },
   { id := "percentage_formatting", name := "Percentage Formatting",
     description := "Inconsistent percentage formatting",
     patternSrc := "\\d+\\s*%|\\d+\\s*percent",
     type := "formatting", severity := "low",
     suggestion := "Use consistent percentage formatting", enabled := true },
   { id := "missing_sections", name := "Missing Section References",
     description := "References to sections that may not exist",
     patternSrc := "(?:see|refer to|as per|according to|pursuant to)\\s+(?:section|clause|paragraph|article)\\s+([A-Z0-9]+(?:\\.[A-Z0-9]+)*)",
     type := "cross_reference", severity := "high",
     suggestion := "Verify section reference exists in document", enabled := true },
   { id := "undefined_terms", name := "Undefined Terms",
     description := "Terms that should be defined",
     patternSrc := "\\b(the\\s+)?(Company|Fund|Partnership|Agreement|Contract|LP|GP|LPA|PPM)\\b(?!\\s+(?:shall|will|may|is|are|means|refers?))",
     type := "logic_point", severity := "medium",
     suggestion := "Ensure capitalized terms are properly defined", enabled := true },
   { id := "date_formats", name := "Inconsistent Date Formats",
     description := "Mixed date formatting styles",
     patternSrc := "\\d{1,2}[\\/\\-]\\d{1,2}[\\/\\-]\\d{2,4}|\\d{1,2}\\s+(January|February|March|April|May|June|July|August|September|October|November|December)\\s+\\d{2,4}",
     type := "formatting", severity := "low",
     suggestion := "Use consistent date formatting throughout document",
     enabled := true },
   { id := "number_formatting", name := "Number Formatting",
     description := "Inconsistent number formatting",
     patternSrc := "\\b\\d{4,}(?!\\.\\d{2}\\b)(?![\\/\\-]\\d)",
     type := "formatting", severity := "low",
     suggestion := "Consider using comma separators for large numbers",
     enabled := true },
   { id := "subscription_amounts", name := "Subscription Amount Issues",
     description := "Potential subscription amount discrepancies",
     patternSrc := "(?:subscription|commitment|capital)\\s+(?:amount|commitment)?\\s*[:=]?\\s*\\$?[\\d,]+",
     type := "logic_point", severity := "high",
     suggestion := "Verify subscription amounts are consistent throughout document",
     enabled := true },
   { id := "signature_pages", name := "Signature Requirements",
     description := "Signature page requirements",
     patternSrc := "(?:signature|executed|signed).*(?:page|below|witness)",
     type := "logic_point", severity := "medium",
     suggestion := "Verify signature requirements and execution instructions",
     enabled := true },
   { id := "closing_dates", name := "Closing Date References",
     description := "Closing date mentions that need verification",
     patternSrc := "(?:closing|effective)\\s+date.*?(?:\\d{1,2}[\\/\\-]\\d{1,2}[\\/\\-]\\d{2,4}|\\w+\\s+\\d{1,2},?\\s+\\d{4})",
     type := "logic_point", severity := "high",
     suggestion := "Confirm closing dates are accurate and consistent",
     enabled := true }]

/-- Embeds `content.substring(start, end)` with `start ≤ end`. -/
def jsSubstring (s : String) (start stop : Nat) : String :=
  ((s.toList.drop start).take (stop - start)).asString

/-- Embeds `splitIntoPages` (local-patterns.ts 341–358): split on form feeds;
with no form feed, split on a 3000-character budget, producing
`Math.ceil(length / 3000)` chunks. -/
def splitIntoPages (content : String) : List String :=
  let pages := jsSplit '\u000c' content
  if pages.length = 1 then
    let avgCharsPerPage := 3000
    let pageCount := (content.length + (avgCharsPerPage - 1)) / avgCharsPerPage
    (List.range pageCount).map (fun i =>
      jsSubstring content (i * avgCharsPerPage)
        (min ((i + 1) * avgCharsPerPage) content.length))
  else pages

/-- Embeds `getPageNumber` (local-patterns.ts 363–372). -/
def getPageNumber (index : Nat) (pages : List String) : Nat :=
  let rec go : List String → Nat → Nat → Nat
    | [], _, _ => pages.length
    | p :: rest, current, i =>
      let current := current + p.length
      if index ≤ current then i + 1 else go rest current (i + 1)
  go pages 0 0

/-- Embeds `getContext` (local-patterns.ts 377–386) with the default length 100:
±50 characters, squashed and trimmed. -/
def getContext (content : String) (index : Nat) : String :=
  let chars := content.toList
  let start := index - 50
  let stop := min chars.length (index + 50)
  (jsTrimL (squashWsL ((chars.drop start).take (stop - start)))).asString

/-- A raw regex hit: matched text and absolute index, as produced by
`rule.pattern.exec` (the oracle boundary). -/
structure RawHit where
  text : String
  index : Nat
  deriving DecidableEq, Repr

structure PatternMatchEntry where
  text : String
  index : Nat
  page : Nat
  context : String
  deriving DecidableEq, Repr

/-- One rule's match list; the source field `matches` is called
`entries` here because `matches` is reserved in Lean. -/
structure PatternMatch where
  rule : PatternRule
  entries : List PatternMatchEntry
  deriving DecidableEq, Repr

/-- Embeds `findPatternMatches` (local-patterns.ts 222–250) downstream of the
regex engine: page resolution and context capture for each raw hit. -/
def findPatternMatches (rule : PatternRule) (content : String)
    (pages : List String) (hits : List RawHit) : PatternMatch :=
  { rule := rule
    entries := hits.map (fun h =>
      { text := h.text
        index := h.index
        page := getPageNumber h.index pages
        context := getContext content h.index }) }

/-- The static correction table of `generateSuggestion`
(local-patterns.ts 314–325). -/
def typoCorrections : List (String × String) :=
  [("teh", "the"), ("recieve", "receive"), ("seperate", "separate"),
   ("occurence", "occurrence"), ("accomodate", "accommodate"),
   ("definately", "definitely"), ("goverment", "government"),
   ("buisness", "business"), ("occured", "occurred"),
   ("managment", "management")]

/-- Embeds `matchedText.toLowerCase()`. -/
def jsToLower (s : String) : String :=
  (s.toList.map Char.toLower).asString

/-- Embeds `generateIssueMessage` (local-patterns.ts 277–306). -/
def generateIssueMessage (rule : PatternRule) (matchedText : String) : String :=
  if rule.id = "common_typos" then "Possible typo: \"" ++ matchedText ++ "\""
  else if rule.id = "duplicate_words" then "Duplicate word found: \"" ++ matchedText ++ "\""
  else if rule.id = "missing_periods" then "Sentence appears to be missing ending punctuation"
  else if rule.id = "double_spaces" then "Multiple consecutive spaces found"
  else if rule.id = "space_before_punctuation" then "Unnecessary space before punctuation"
  else if rule.id = "sentence_capitalization" then "Sentence should start with capital letter"
  else if rule.id = "currency_formatting" then "Currency formatting may be inconsistent: \"" ++ matchedText ++ "\""
  else if rule.id = "missing_sections" then "Section reference may need verification: \"" ++ matchedText ++ "\""
  else if rule.id = "undefined_terms" then "Capitalized term may need definition: \"" ++ matchedText ++ "\""
  else if rule.id = "subscription_amounts" then "Subscription amount requires verification: \"" ++ matchedText ++ "\""
  else if rule.id = "signature_pages" then "Signature requirement needs review: \"" ++ matchedText ++ "\""
  else if rule.id = "closing_dates" then "Closing date needs verification: \"" ++ matchedText ++ "\""
  else rule.description ++ ": \"" ++ matchedText ++ "\""

/-- Embeds `generateSuggestion` (local-patterns.ts 311–336). -/
def generateSuggestion (rule : PatternRule) (matchedText : String) : String :=
  if rule.id = "common_typos" then
    match (typoCorrections.find? (fun kv => kv.1 = jsToLower matchedText)) with
    | some kv => "Change to \"" ++ kv.2 ++ "\""
    | none => "Check spelling"
  else if rule.id = "duplicate_words" then
    "Remove duplicate \"" ++ (jsSplit ' ' matchedText).headD "" ++ "\""
  else if rule.id = "currency_formatting" then
    "Use format like \"$1,000.00\""
  else rule.suggestion

/-- Embeds `convertMatchesToIssues` (local-patterns.ts 255–272). -/
def convertMatchesToIssues (pms : List PatternMatch) : List AnalysisIssue :=
  pms.foldl (fun issues m =>
    issues ++ m.entries.map (fun e =>
      { page := (e.page : Int)
        type := m.rule.type
        message := generateIssueMessage m.rule e.text
        original := e.text
        suggestion := generateSuggestion m.rule e.text
        locationHint := e.context })) []

/-- Embeds `processDocument` (local-patterns.ts 194–217) with the regex engine's
raw hits per enabled rule supplied as `hitsFor`: rules with no hits are
skipped, the rest are converted to issues, and the summary is derived
from the converted issue list. -/
def processDocument (rules : List PatternRule) (content : String)
    (fileName : String) (hitsFor : PatternRule → List RawHit) : AnalysisResult :=
  let pages := splitIntoPages content
  let allMatches :=
    (rules.filter (·.enabled)).foldl (fun acc rule =>
      let m := findPatternMatches rule content pages (hitsFor rule)
      if m.entries.length > 0 then acc ++ [m] else acc) []
  let issues := convertMatchesToIssues allMatches
  { fileName := fileName
    issues := issues
    summary := { issueCount := (issues.length : Int)
                 pagesAffected := dedupFirst (issues.map (·.page)) } }

/-! ## `src/lib/email.ts` — post-processor checks and metadata

`generateReviewEmail` calls the model and `JSON.parse`s its reply; the
parsed draft is the oracle boundary.  Everything deterministic past the
parse — the post-processor checks and the metadata derivation (email.ts
184–233, 253–267) — is embedded.  String fields model JS falsiness: an
absent `sectionTitle` / `pageRef` / `type` is the empty string. -/

inductive FlagKind where
  | warning : FlagKind
  | error : FlagKind
  deriving DecidableEq, Repr

structure PostProcessorFlag where
  kind : FlagKind
  message : String
  deriving DecidableEq, Repr

structure QuestionEvidence where
  sectionTitle : String
  pageRef : String
  deriving DecidableEq, Repr

structure DraftQuestion where
  qtype : String
  title : String
  issue : String
  evidence : QuestionEvidence
  proposedSolution : String
  requestUpdatedPDF : Bool
  deriving DecidableEq, Repr

/-- The generated JSON draft, restricted to the fields the post-processor
reads.  `questions` is `none` when the payload's field is not an array
(the code then replaces it with `[]`). -/
structure EmailDraft where
  opening : String
  questions : Option (List DraftQuestion)
  closing : String
  deriving DecidableEq, Repr

/-- Embeds `/p\. \d+/.test(pageRef)`: an unanchored search — true when `"p. "`
followed by a digit occurs anywhere in the string. -/
def containsPageRefPattern (s : String) : Bool :=
  let rec go : List Char → Bool
    | 'p' :: '.' :: ' ' :: c :: rest => c.isDigit || go ('.' :: ' ' :: c :: rest)
    | _ :: rest => go rest
    | [] => false
  go s.toList

/-- Embeds `checkTerminology` (email.ts 166–182). -/
def checkTerminology (text : String) : List PostProcessorFlag :=
  let investorTerms := ["Investor", "Subscriber", "Applicant"]
  let fundTerms := ["Fund", "Partnership"]
  let foundInvestor := investorTerms.filter (fun t => jsIncludes text t)
  let investorFlags :=
    if foundInvestor.length > 1 then
      [{ kind := FlagKind.warning
         message := "Inconsistent terminology for investor: " ++ joinSep ", " foundInvestor }]
    else []
  let foundFund := fundTerms.filter (fun t => jsIncludes text t)
  let fundFlags :=
    if foundFund.length > 1 then
      [{ kind := FlagKind.warning
         message := "Inconsistent terminology for fund: " ++ joinSep ", " foundFund }]
    else []
  investorFlags ++ fundFlags

/-- Flags of the reference check, loop 1 of `runPostProcessorChecks`
(email.ts 201–208): per question, an `error` flag for a missing
`sectionTitle`/`pageRef` and a `warning` flag for a present `pageRef`
that fails the pattern search. -/
def referenceCheckFlags (qs : List DraftQuestion) : List PostProcessorFlag :=
  qs.foldl (fun flags q =>
    flags ++
    ((if q.evidence.sectionTitle = "" || q.evidence.pageRef = "" then
       [{ kind := FlagKind.error
          message := "Missing sectionTitle or pageRef for question: " ++ q.title }]
      else []) ++
     (if q.evidence.pageRef ≠ "" && !containsPageRefPattern q.evidence.pageRef then
       [{ kind := FlagKind.warning
          message := "Incorrect pageRef format for question: " ++ q.title }]
      else []))) []

/-- Flags of the updated-PDF check, loop 3 of `runPostProcessorChecks`
(email.ts 215–219). -/
def updatedPdfFlags (qs : List DraftQuestion) : List PostProcessorFlag :=
  qs.foldl (fun flags q =>
    flags ++
    (if q.requestUpdatedPDF &&
        !jsIncludes (jsToLower q.proposedSolution) "updated" &&
        !jsIncludes (jsToLower q.proposedSolution) "revised" then
      [{ kind := FlagKind.warning
         message := "Question “" ++ q.title ++ "” may need to explicitly ask for an updated PDF." }]
     else [])) []

/-- The combined email text of check 4 (email.ts 222). -/
def combinedEmailText (draft : EmailDraft) : String :=
  let qs := draft.questions.getD []
  draft.opening ++ " " ++
  joinSep " " (qs.map (fun q => q.issue ++ " " ++ q.proposedSolution)) ++ " " ++
  draft.closing

/-- The full flag list the post-processor produces once the completeness
check has passed. -/
def postProcessorFlags (draft : EmailDraft) : List PostProcessorFlag :=
  let qs := draft.questions.getD []
  referenceCheckFlags qs ++ updatedPdfFlags qs ++
  checkTerminology (combinedEmailText draft)

/-- Embeds `runPostProcessorChecks` (email.ts 184–233): a question with a falsy
`type` is a hard failure; otherwise the flag list is returned. -/
def runPostProcessorChecks (draft : EmailDraft) :
    Except String (List PostProcessorFlag) :=
  if (draft.questions.getD []).any (fun q => q.qtype = "") then
    Except.error "Question is missing a type"
  else
    Except.ok (postProcessorFlags draft)

structure EmailMetadata where
  toneCheckPassed : Bool
  referencesCheckPassed : Bool
  deriving DecidableEq, Repr

/-- The metadata derivation of `generateReviewEmail` (email.ts 263–267). -/
def emailMetadataOf (flags : List PostProcessorFlag) : EmailMetadata :=
  { toneCheckPassed := !flags.any (fun f => f.kind = FlagKind.error)
    referencesCheckPassed :=
      !flags.any (fun f =>
        jsIncludes f.message "pageRef" || jsIncludes f.message "sectionTitle") }

/-- Modelled from the spec: a string of the literal shape
`"p. <digits>"` — `"p. "` followed by one or more digits and nothing
else.  The claim-side reading of the reference-format rule. -/
def isLiteralPageRef (s : String) : Bool :=
  match s.toList with
  | 'p' :: '.' :: ' ' :: rest => !rest.isEmpty && rest.all Char.isDigit
  | _ => false

/-! # Theorems -/

/-! ## Claim C10 — manual-only processing -/

/-- Claim C10: for every file name, processing with method `manual_only`
returns an `AnalysisResult` with exactly one issue — type `other`,
page 1, the fixed manual-review message — whose summary reports
`issueCount = 1` and `pagesAffected = [1]`, never a zero-issue result. -/
theorem manual_only_single_fixed_issue (fileName : String) :
    processManualOnly fileName =
      { fileName := fileName
        issues := [{ page := 1
                     type := "other"
                     message := "Document uploaded for manual review only"
                     original := ""
                     suggestion := "Please review this document manually"
                     locationHint := "Manual review required" }]
        summary := { issueCount := 1, pagesAffected := [1] } } ∧
    (processManualOnly fileName).issues.length = 1 := by
  exact ⟨rfl, rfl⟩

/-! ## Claim C1 — surfacing of model-analysis failures -/

/-- Claim C1 counterexample: on the company-LLM path a response text that
fails JSON parsing does NOT fail with a surfaced error — at the concrete
input (parse failure, file `report.pdf`) `parseAnalysisResponse` returns
a successful empty zero-issue `AnalysisResult`, exactly what the claim
says never happens. -/
theorem parse_failure_returns_empty_result_cex :
    parseAnalysisResponse none "report.pdf" =
      { fileName := "report.pdf"
        issues := []
        summary := { issueCount := 0, pagesAffected := [] } } ∧
    (parseAnalysisResponse none "report.pdf").issues.length = 0 := by
  exact ⟨rfl, rfl⟩

/-- Claim C1 amended: on the Gemini path (`callGemini`, review.ts) a lost
timeout race and an unparseable body are surfaced as the distinct errors
`Model timeout` and `Bad model JSON` (without the raw response text); on
the company-LLM path a parse failure is NOT surfaced:
`parseAnalysisResponse` returns the fallback zero-issue result, and
`processWithCompanyLLM` converts any company-LLM failure into the
successful local-pattern result. -/
theorem model_failure_surfacing_amended :
    (∀ fileName, parseAnalysisResponse none fileName =
        { fileName := fileName
          issues := []
          summary := { issueCount := 0, pagesAffected := [] } }) ∧
    callGeminiResult GeminiOutcome.timeout = Except.error "Model timeout" ∧
    callGeminiResult (GeminiOutcome.response none) = Except.error "Bad model JSON" ∧
    (∀ e localResult, processWithCompanyLLM (Except.error e) localResult = localResult) := by
  exact ⟨fun _ => rfl, rfl, rfl, fun _ _ => rfl⟩

/-! ## Claim C2 — summary derivation -/

/-- Claim C2 counterexample: the model-analysis path does not derive the
summary from the issue list — at a concrete parsed payload carrying one
issue on page 7 but `summary.issueCount = 5` and
`summary.pagesAffected = [7, 8]`, `parseAnalysisResponse` copies the
payload's summary verbatim. -/
theorem summary_copied_not_derived_cex :
    (parseAnalysisResponse
        (some { fileName := none
                issues := some [{ page := some 7, type := some "typo",
                                  message := some "m", original := some "o",
                                  suggestion := some "s", locationHint := some "l" }]
                summary := some { issueCount := some 5,
                                  pagesAffected := some [7, 8] } })
        "f.pdf").issues.length = 1 ∧
    (parseAnalysisResponse
        (some { fileName := none
                issues := some [{ page := some 7, type := some "typo",
                                  message := some "m", original := some "o",
                                  suggestion := some "s", locationHint := some "l" }]
                summary := some { issueCount := some 5,
                                  pagesAffected := some [7, 8] } })
        "f.pdf").summary =
      { issueCount := 5, pagesAffected := [7, 8] } := by
  exact ⟨rfl, rfl⟩

/-- Claim C2 amended: pattern analysis (`processDocument`) and
normalization (`normalizeData`) always derive `summary.issueCount` as the
issue-list length and `summary.pagesAffected` as the deduplicated page
list; the model-analysis path (`parseAnalysisResponse`) instead copies
the summary from the parsed payload. -/
theorem summary_derivation_amended :
    (∀ data fileName,
       (normalizeData data fileName).summary.issueCount =
         ((normalizeData data fileName).issues.length : Int) ∧
       (normalizeData data fileName).summary.pagesAffected =
         dedupFirst ((normalizeData data fileName).issues.map (·.page))) ∧
    (∀ rules content fileName hitsFor,
       (processDocument rules content fileName hitsFor).summary.issueCount =
         ((processDocument rules content fileName hitsFor).issues.length : Int) ∧
       (processDocument rules content fileName hitsFor).summary.pagesAffected =
         dedupFirst ((processDocument rules content fileName hitsFor).issues.map (·.page))) := by
  exact ⟨fun _ _ => ⟨rfl, rfl⟩, fun _ _ _ _ => ⟨rfl, rfl⟩⟩

/-! ## Claim C3 — closed type vocabulary -/

/-- Claim C3 counterexample: `cross_reference` is in the claim's
vocabulary, yet `normalizeData` (review.ts) coerces it to `other`; and
`numbering` is coerced to `other` by `normalizeIssue` (company-llm.ts).
Both contradict "a type inside the vocabulary is left unchanged". -/
theorem vocabulary_coercion_cex :
    (normalizeData
        { issues := some [{ page := some 2, type := some "cross_reference",
                            message := none, original := none,
                            suggestion := none, locationHint := none }] }
        "doc.pdf").issues.map (·.type) = ["other"] ∧
    (normalizeIssueCompany
        { page := some 1, type := some "numbering", message := none,
          original := none, suggestion := none, locationHint := none }).type =
      "other" := by
  exact ⟨rfl, rfl⟩

/-- Claim C3 amended: each normalizer coerces issue types into its own
allowed list and drops no issue; `review.ts` recognizes only
{typo, spacing, punctuation, capitalization, alignment, font, formatting,
other} (so `cross_reference`, `numbering`, `reference`, `logic_point`
become `other` there), while `company-llm.ts` additionally recognizes
`cross_reference` and `logic_point` (but still coerces `numbering` and
`reference` to `other`); a type in the respective list is unchanged. -/
theorem vocabulary_coercion_amended :
    (∀ data fileName,
       (normalizeData data fileName).issues.length = (data.issues.getD []).length) ∧
    (∀ data fileName, ∀ i ∈ (normalizeData data fileName).issues,
       i.type ∈ reviewAllowedTypes) ∧
    (∀ r t, r.type = some t → t ∈ reviewAllowedTypes →
       (normalizeIssueReview r).type = t) ∧
    (∀ p fileName,
       (parseAnalysisResponse (some p) fileName).issues.length =
         (p.issues.getD []).length) ∧
    (∀ p fileName, ∀ i ∈ (parseAnalysisResponse (some p) fileName).issues,
       i.type ∈ companyValidTypes) ∧
    (∀ r t, r.type = some t → t ∈ companyValidTypes →
       (normalizeIssueCompany r).type = t) := by
  refine ⟨?_, ?_, ?_, ?_, ?_, ?_⟩
  · intro data fileName
    simp [normalizeData]
  · intro data fileName i hi
    simp only [normalizeData, List.mem_map] at hi
    obtain ⟨r, _, rfl⟩ := hi
    simp only [normalizeIssueReview]
    match h : r.type with
    | none => decide
    | some t =>
      by_cases ht : t ∈ reviewAllowedTypes
      · simp [ht]
      · simp [ht]
        decide
  · intro r t h ht
    simp [normalizeIssueReview, h, ht]
  · intro p fileName
    simp [parseAnalysisResponse]
  · intro p fileName i hi
    simp only [parseAnalysisResponse, List.mem_map] at hi
    obtain ⟨r, _, rfl⟩ := hi
    simp only [normalizeIssueCompany]
    match h : r.type with
    | none => decide
    | some t =>
      by_cases ht : t ∈ companyValidTypes
      · simp [ht]
      · simp [ht]
        decide
  · intro r t h ht
    simp [normalizeIssueCompany, h, ht]

/-- Witness for the amended C3 theorem: the type-preservation conjuncts
applied at concrete in-vocabulary inputs. -/
theorem vocabulary_coercion_amended_witness :
    (normalizeIssueReview
        { page := some 1, type := some "typo", message := none,
          original := none, suggestion := none, locationHint := none }).type =
      "typo" ∧
    (normalizeIssueCompany
        { page := some 1, type := some "cross_reference", message := none,
          original := none, suggestion := none, locationHint := none }).type =
      "cross_reference" := by
  exact ⟨vocabulary_coercion_amended.2.2.1 _ "typo" rfl (by decide),
         vocabulary_coercion_amended.2.2.2.2.2 _ "cross_reference" rfl (by decide)⟩

/-! ## Claim C5 — numbering gap detection -/

/-- Claim C5: on one page with lines `a. foo`, `b. bar`, `d. baz`,
`findNumberingGaps` emits exactly one `numbering` issue, for the jump
from `b` to `d` (none for the `a`→`b` step), and a marker run shorter
than two lines never yields an issue. -/
theorem numbering_gap_detection (page : Nat) (seq : List (String × String)) :
    findNumberingGaps ["a. foo\nb. bar\nd. baz"] =
      [{ page := 1
         type := "numbering"
         message := "List jumps from \"b\" to \"d\""
         original := "d. baz"
         suggestion := "Insert \"c.\" or renumber."
         locationHint := "d. baz" }] ∧
    (seq.length < 2 → flushRun page seq = []) := by
  constructor
  · decide
  · intro h
    simp [flushRun, h]

/-- Witness for C5: the short-run conjunct applied to a singleton run. -/
theorem numbering_gap_detection_witness :
    flushRun 1 [("a", "a. foo")] = [] :=
  (numbering_gap_detection 1 [("a", "a. foo")]).2 (by decide)

/-! ## Claim C4 — cross-reference scenario (code bug in rules.ts line 18)

As written, `collectDeclaredSections` cannot run: the character class
`[–—-:]` of `looksHeader` is an out-of-order range (U+2014 to U+003A),
an early SyntaxError, so importing `rules.ts` throws and the detector
never produces anything.  The theorem below evaluates the minimally
repaired embedding (separator class read as its four literal characters)
at the claim's input and shows the claimed behavior is exactly what the
intended code produces: one `reference` issue on page 3 naming
`Section 2`, whose suggestion enumerates the declared sections, and no
issue for `Section 1`. -/

/-- Claim C4: on pages declaring `Section 1` (page 1) and referencing
`Section 2` (page 3, undeclared), the repaired detector pipeline emits
exactly the single claimed issue. -/
theorem crossref_missing_section_eval :
    crossReferenceIssues
        ["Section 1: Intro", "", "Please see Section 2 for details."] =
      [{ page := 3
         type := "reference"
         message := "Reference to missing section: Section 2"
         original := "Please see Section 2 for details."
         suggestion := "Remove/update the reference; declared sections: Section 1."
         locationHint := "Please see Section 2 for details." }] := by
  decide

/-! ## Claim C7 — the declaration rule -/

/-- Claim C7 counterexample: the claimed iff fails in both directions at
concrete inputs.  On the line `Section 1: see Section 9` the mid-line
token `Section 9` is not followed by any separator and the trimmed line
does not start with it, yet the index records it (the code's header test
is anchored to the line, so a header-like line start admits every token
on the line).  Conversely on `Intro to Section 2: details` the token
`Section 2` is immediately followed by a separator, yet nothing is
recorded. -/
theorem declaration_rule_cex :
    "Section 9" ∈ sectionMatches "Section 1: see Section 9" ∧
    specDeclarationRule "Section 1: see Section 9" "Section 9" = false ∧
    collectDeclaredSections ["Section 1: see Section 9"] =
      [("Section 1", [1]), ("Section 9", [1])] ∧
    specDeclarationRule "Intro to Section 2: details" "Section 2" = true ∧
    collectDeclaredSections ["Intro to Section 2: details"] = [] := by
  decide

/-- Claim C7 amended: a matched token of a line is recorded iff the
line-anchored header test passes — the line begins, after optional
whitespace, with a Section label followed by optional whitespace and a
separator — or the trimmed line starts with the token.  The test looks
only at the line, so when it passes, every token of that line is
recorded, and a mid-line separator after the token itself is irrelevant.
(The separator class is read as its four literal characters; as written
it is an invalid range and the module cannot even load.) -/
theorem declaration_rule_amended :
    (∀ line tok, tok ∈ declTokensOfLine line ↔
       (tok ∈ sectionMatches line ∧
        (headerAnchorTest line = true ∨
         startsWithL (jsTrimStartL line.toList) tok.toList = true))) ∧
    "Section 9" ∈ declTokensOfLine "Section 1: see Section 9" ∧
    "Section 2" ∉ declTokensOfLine "Intro to Section 2: details" := by
  refine ⟨?_, by decide, by decide⟩
  intro line tok
  simp [declTokensOfLine, List.mem_filter, looksHeader]

/-! ## Claim C6 — idempotent normalization -/

theorem one_le_coercePage (p : Option Int) : 1 ≤ coercePage p := by
  unfold coercePage
  exact le_max_left _ _

theorem coercePage_some_of_pos (k : Int) (h : 1 ≤ k) : coercePage (some k) = k := by
  show max 1 (if k = 0 then 1 else k) = k
  rw [if_neg (by omega : k ≠ 0)]
  exact max_eq_right h

theorem normalizeIssueReview_roundtrip (r : RawIssue) :
    normalizeIssueReview (toRawIssue (normalizeIssueReview r)) =
      normalizeIssueReview r := by
  unfold normalizeIssueReview toRawIssue
  simp only [Option.getD_some]
  refine congrArg₂ (fun p t => AnalysisIssue.mk p t _ _ _ _) ?_ ?_
  · exact coercePage_some_of_pos _ (one_le_coercePage r.page)
  · match r.type with
    | none => decide
    | some t =>
      by_cases ht : t ∈ reviewAllowedTypes
      · simp [ht]
      · simp [ht]

/-- Claim C6: normalization is idempotent — rereading the output of
`normalizeData` as raw input and normalizing again changes nothing. -/
theorem normalize_idempotent (x : RawAnalysis) (f : String) :
    normalizeData (toRawAnalysis (normalizeData x f)) f = normalizeData x f := by
  have key : ∀ l : List RawIssue,
      ((l.map normalizeIssueReview).map toRawIssue).map normalizeIssueReview =
        l.map normalizeIssueReview := by
    intro l
    induction l with
    | nil => rfl
    | cons a l ih =>
      simp only [List.map_cons, List.cons.injEq]
      exact ⟨normalizeIssueReview_roundtrip a, ih⟩
  unfold normalizeData toRawAnalysis
  simp only [Option.getD_some, key]

/-! ## Claim C8 — email reference-format check -/

theorem startsWithL_nil_needle (l : List Char) : startsWithL l [] = true := by
  cases l <;> rfl

theorem startsWithL_append_right (n : List Char) :
    ∀ (l m : List Char), startsWithL l n = true → startsWithL (l ++ m) n = true := by
  induction n with
  | nil => intro l m _; exact startsWithL_nil_needle _
  | cons d ds ih =>
    intro l m h
    cases l with
    | nil => simp [startsWithL] at h
    | cons c cs =>
      simp only [startsWithL, Bool.and_eq_true] at h ⊢
      exact ⟨h.1, ih cs m h.2⟩

theorem containsSubL_nil_needle (l : List Char) : containsSubL l [] = true := by
  cases l <;> rfl

theorem containsSubL_append_left (n : List Char) :
    ∀ (l m : List Char), containsSubL l n = true → containsSubL (l ++ m) n = true := by
  intro l
  induction l with
  | nil =>
    intro m h
    cases n with
    | nil => exact containsSubL_nil_needle m
    | cons d ds => simp [containsSubL, startsWithL] at h
  | cons c cs ih =>
    intro m h
    simp only [containsSubL, Bool.or_eq_true] at h
    rcases h with h | h
    · simp only [List.cons_append, containsSubL, Bool.or_eq_true]
      exact Or.inl (startsWithL_append_right n (c :: cs) m h)
    · simp only [List.cons_append, containsSubL, Bool.or_eq_true]
      exact Or.inr (ih m h)

theorem toList_string_append (s t : String) :
    (s ++ t).toList = s.toList ++ t.toList := rfl

/-- The warning text of the reference check always mentions `pageRef`. -/
theorem incorrect_pageref_msg_mentions (title : String) :
    jsIncludes ("Incorrect pageRef format for question: " ++ title) "pageRef" = true := by
  show containsSubL (("Incorrect pageRef format for question: " ++ title).toList)
        ("pageRef".toList) = true
  rw [toList_string_append]
  exact containsSubL_append_left _ _ _ (by decide)

/-- The error text of the reference check always mentions `sectionTitle`. -/
theorem missing_ref_msg_mentions (title : String) :
    jsIncludes ("Missing sectionTitle or pageRef for question: " ++ title)
      "sectionTitle" = true := by
  show containsSubL (("Missing sectionTitle or pageRef for question: " ++ title).toList)
        ("sectionTitle".toList) = true
  rw [toList_string_append]
  exact containsSubL_append_left _ _ _ (by decide)

theorem foldl_append_superset {α β : Type} (f : α → List β) :
    ∀ (qs : List α) (acc : List β) (x : β), x ∈ acc →
      x ∈ qs.foldl (fun a q => a ++ f q) acc := by
  intro qs
  induction qs with
  | nil => intro acc x hx; simpa using hx
  | cons a l ih => intro acc x hx; exact ih _ _ (List.mem_append_left _ hx)

theorem mem_foldl_append {α β : Type} (f : α → List β) (qs : List α) (q : α) (x : β)
    (hq : q ∈ qs) (hx : x ∈ f q) :
    ∀ acc, x ∈ qs.foldl (fun a q => a ++ f q) acc := by
  induction qs with
  | nil => cases hq
  | cons a l ih =>
    intro acc
    rcases List.mem_cons.mp hq with h | h
    · subst h
      exact foldl_append_superset f l _ x (List.mem_append_right _ hx)
    · exact ih h _

/-- Claim C8 counterexample: `pp. 30` is not of the literal shape
`p. <digits>`, yet — because the code's test is an unanchored substring
search — the concrete draft whose only question cites it produces no
flag at all and `referencesCheckPassed = true`, where the claim demands a
warning flag and `referencesCheckPassed = false`. -/
theorem pageref_containment_cex :
    isLiteralPageRef "pp. 30" = false ∧
    runPostProcessorChecks
        { opening := "Hello"
          questions := some [{ qtype := "question", title := "Q1",
                               issue := "Issue text",
                               evidence := { sectionTitle := "Section 2",
                                             pageRef := "pp. 30" },
                               proposedSolution := "Solution text",
                               requestUpdatedPDF := false }]
          closing := "Thanks" } = Except.ok [] ∧
    (emailMetadataOf (postProcessorFlags
        { opening := "Hello"
          questions := some [{ qtype := "question", title := "Q1",
                               issue := "Issue text",
                               evidence := { sectionTitle := "Section 2",
                                             pageRef := "pp. 30" },
                               proposedSolution := "Solution text",
                               requestUpdatedPDF := false }]
          closing := "Thanks" })).referencesCheckPassed = true := by
  exact ⟨rfl, rfl, rfl⟩

/-- Claim C8 amended: a question whose `evidence.pageRef` is present but
in which the substring pattern `p. <digit>` does not occur anywhere (the
code tests containment with `/p\. \d+/.test`, not a full-shape match —
`page 3` is such a value) yields a warning flag and
`referencesCheckPassed = false`; a question missing `sectionTitle` or
`pageRef` yields an error flag (also making `referencesCheckPassed`
false); and when every question carries a `type`, the post-processor
returns this flag list rather than failing. -/
theorem pageref_check_amended (draft : EmailDraft) (q : DraftQuestion)
    (hq : q ∈ draft.questions.getD []) :
    (q.evidence.pageRef ≠ "" →
      containsPageRefPattern q.evidence.pageRef = false →
      ({ kind := FlagKind.warning
         message := "Incorrect pageRef format for question: " ++ q.title } :
          PostProcessorFlag) ∈ postProcessorFlags draft ∧
      (emailMetadataOf (postProcessorFlags draft)).referencesCheckPassed = false) ∧
    ((q.evidence.sectionTitle = "" ∨ q.evidence.pageRef = "") →
      ({ kind := FlagKind.error
         message := "Missing sectionTitle or pageRef for question: " ++ q.title } :
          PostProcessorFlag) ∈ postProcessorFlags draft ∧
      (emailMetadataOf (postProcessorFlags draft)).referencesCheckPassed = false) ∧
    ((∀ q' ∈ draft.questions.getD [], q'.qtype ≠ "") →
      runPostProcessorChecks draft = Except.ok (postProcessorFlags draft)) := by
  refine ⟨?_, ?_, ?_⟩
  · intro hne hpat
    have hmem : ({ kind := FlagKind.warning
                   message := "Incorrect pageRef format for question: " ++ q.title } :
                    PostProcessorFlag) ∈ postProcessorFlags draft := by
      apply List.mem_append_left
      apply List.mem_append_left
      apply mem_foldl_append _ _ q _ hq _ []
      apply List.mem_append_right
      simp [hne, hpat]
    refine ⟨hmem, ?_⟩
    have hany : (postProcessorFlags draft).any
        (fun f => jsIncludes f.message "pageRef" ||
                  jsIncludes f.message "sectionTitle") = true :=
      List.any_eq_true.mpr ⟨_, hmem, by simp [incorrect_pageref_msg_mentions]⟩
    simp [emailMetadataOf, hany]
  · intro hmiss
    have hmem : ({ kind := FlagKind.error
                   message := "Missing sectionTitle or pageRef for question: " ++ q.title } :
                    PostProcessorFlag) ∈ postProcessorFlags draft := by
      apply List.mem_append_left
      apply List.mem_append_left
      apply mem_foldl_append _ _ q _ hq _ []
      apply List.mem_append_left
      rcases hmiss with h | h <;> simp [h]
    refine ⟨hmem, ?_⟩
    have hany : (postProcessorFlags draft).any
        (fun f => jsIncludes f.message "pageRef" ||
                  jsIncludes f.message "sectionTitle") = true :=
      List.any_eq_true.mpr ⟨_, hmem, by simp [missing_ref_msg_mentions]⟩
    simp [emailMetadataOf, hany]
  · intro htypes
    unfold runPostProcessorChecks
    rw [if_neg]
    intro hany
    rw [List.any_eq_true] at hany
    obtain ⟨q', hq', hq'type⟩ := hany
    exact htypes q' hq' (by simpa using hq'type)

/-- Witness for the amended C8 theorem, at the concrete draft whose only
question cites `page 3`. -/
theorem pageref_check_amended_witness :
    ({ kind := FlagKind.warning
       message := "Incorrect pageRef format for question: Q1" } :
        PostProcessorFlag) ∈ postProcessorFlags
      { opening := "Hello"
        questions := some [{ qtype := "question", title := "Q1",
                             issue := "Issue text",
                             evidence := { sectionTitle := "Section 2",
                                           pageRef := "page 3" },
                             proposedSolution := "Solution text",
                             requestUpdatedPDF := false }]
        closing := "Thanks" } ∧
    (emailMetadataOf (postProcessorFlags
      { opening := "Hello"
        questions := some [{ qtype := "question", title := "Q1",
                             issue := "Issue text",
                             evidence := { sectionTitle := "Section 2",
                                           pageRef := "page 3" },
                             proposedSolution := "Solution text",
                             requestUpdatedPDF := false }]
        closing := "Thanks" })).referencesCheckPassed = false := by
  have h := pageref_check_amended
    { opening := "Hello"
      questions := some [{ qtype := "question", title := "Q1",
                           issue := "Issue text",
                           evidence := { sectionTitle := "Section 2",
                                         pageRef := "page 3" },
                           proposedSolution := "Solution text",
                           requestUpdatedPDF := false }]
      closing := "Thanks" }
    { qtype := "question", title := "Q1", issue := "Issue text",
      evidence := { sectionTitle := "Section 2", pageRef := "page 3" },
      proposedSolution := "Solution text", requestUpdatedPDF := false }
    (by decide)
  exact h.1 (by decide) (by decide)

/-! ## Claim C9 — page-splitting fallback -/

theorem splitChL_of_not_mem (sep : Char) :
    ∀ (l : List Char), sep ∉ l → splitChL sep l = [l] := by
  intro l
  induction l with
  | nil => intro _; rfl
  | cons c cs ih =>
    intro h
    have hc : ¬ c = sep := by
      intro e
      exact h (by rw [e]; exact List.mem_cons_self _ _)
    have hcs : sep ∉ cs := fun hm => h (List.mem_cons_of_mem _ hm)
    simp [splitChL, ih hcs, hc]

theorem take_clamp {α : Type _} (xs : List α) (a : Nat) :
    xs.take (min a xs.length) = xs.take a := by
  rcases Nat.le_total a xs.length with h | h
  · rw [Nat.min_eq_left h]
  · rw [Nat.min_eq_right h, List.take_length, List.take_of_length_le h]

theorem take_add_split {α : Type _} (m n : Nat) :
    ∀ l : List α, l.take (m + n) = l.take m ++ (l.drop m).take n := by
  induction m with
  | zero => intro l; simp
  | succ m ih =>
    intro l
    cases l with
    | nil => simp
    | cons a l =>
      have h : m + 1 + n = (m + n) + 1 := by omega
      rw [h, List.take_succ_cons, List.take_succ_cons, List.drop_succ_cons,
          List.cons_append, ih l]

theorem flatten_budget_chunks {α : Type _} (l : List α) :
    ∀ n : Nat,
      ((List.range n).map (fun i => (l.drop (i * 3000)).take 3000)).flatten =
        l.take (n * 3000) := by
  intro n
  induction n with
  | zero => simp
  | succ n ih =>
    rw [List.range_succ, List.map_append, List.flatten_append, ih]
    simp only [List.map_cons, List.map_nil, List.flatten_cons, List.flatten_nil,
      List.append_nil]
    rw [← take_add_split]
    have h : n * 3000 + 3000 = (n + 1) * 3000 := by ring
    rw [h]

/-- Claim C9: on text without form feeds, `splitIntoPages` partitions the
text — concatenating the chunks' characters gives back exactly the
original character sequence — into `⌈length / 3000⌉` chunks, each of
them except possibly the last being exactly 3000 characters long. -/
theorem split_into_pages_partition (s : String)
    (h : ('\u000c' : Char) ∉ s.toList) :
    ((splitIntoPages s).map String.toList).flatten = s.toList ∧
    (splitIntoPages s).length = (s.length + 2999) / 3000 ∧
    (∀ i : Nat, i + 1 < (splitIntoPages s).length →
      ((splitIntoPages s).getD i "").length = 3000) := by
  have hsplit : jsSplit '\u000c' s = [s] := by
    unfold jsSplit
    rw [splitChL_of_not_mem _ _ h]
    rfl
  have hpages : splitIntoPages s =
      (List.range ((s.length + 2999) / 3000)).map
        (fun i => jsSubstring s (i * 3000) (min ((i + 1) * 3000) s.length)) := by
    simp [splitIntoPages, hsplit]
  have hlen : s.length = s.toList.length := rfl
  have hchunk : ∀ i : Nat,
      (jsSubstring s (i * 3000) (min ((i + 1) * 3000) s.length)).toList =
        (s.toList.drop (i * 3000)).take 3000 := by
    intro i
    show (s.toList.drop (i * 3000)).take (min ((i + 1) * 3000) s.length - i * 3000) = _
    have h1 : min ((i + 1) * 3000) s.length - i * 3000 =
        min 3000 ((s.toList.drop (i * 3000)).length) := by
      rw [List.length_drop]
      omega
    rw [h1, take_clamp]
  refine ⟨?_, ?_, ?_⟩
  · have hmapped : ((List.range ((s.length + 2999) / 3000)).map
          (fun i => jsSubstring s (i * 3000) (min ((i + 1) * 3000) s.length))).map
            String.toList =
        (List.range ((s.length + 2999) / 3000)).map
          (fun i => (s.toList.drop (i * 3000)).take 3000) := by
      rw [List.map_map]
      exact List.map_congr_left (fun i _ => hchunk i)
    rw [hpages, hmapped, flatten_budget_chunks]
    exact List.take_of_length_le (by omega)
  · rw [hpages]
    simp
  · intro i hi
    rw [hpages] at hi ⊢
    simp only [List.length_map, List.length_range] at hi
    rw [List.getD_eq_getElem _ _ (by simp; omega)]
    rw [List.getElem_map, List.getElem_range]
    have hstrlen : (jsSubstring s (i * 3000) (min ((i + 1) * 3000) s.length)).length =
        ((s.toList.drop (i * 3000)).take 3000).length := by
      rw [← hchunk i]
      rfl
    rw [hstrlen, List.length_take, List.length_drop]
    omega

/-- Witness for C9 at the concrete form-feed-free text `hello`. -/
theorem split_into_pages_partition_witness :
    ((splitIntoPages "hello").map String.toList).flatten = "hello".toList ∧
    (splitIntoPages "hello").length = ("hello".length + 2999) / 3000 ∧
    (∀ i : Nat, i + 1 < (splitIntoPages "hello").length →
      ((splitIntoPages "hello").getD i "").length = 3000) :=
  split_into_pages_partition "hello" (by decide)
